import Mathlib

/-!
Verification of the pharmacy rota generator scheduling engine.

Shallow embedding of `src/models.py`, `src/config.py` and `src/scheduler.py`:
times of day are minutes since midnight (`Int`), dates are integer day
numbers, Python dicts are association lists looked up by decidable equality,
and Python sets are lists queried by membership.  Each definition mirrors the
corresponding Python function of the source.
-/

set_option autoImplicit false

namespace Rota

/-! ### Enumerations (`models.py`) -/

inductive Day where
  | monday | tuesday | wednesday | thursday | friday
deriving DecidableEq, Repr

/-- Iteration order of `for day in Day`. -/
def Day.all : List Day := [.monday, .tuesday, .wednesday, .thursday, .friday]

inductive Band where
  | band6 | band7 | band8
deriving DecidableEq, Repr

inductive WardArea where
  | eau | surgery | itu | careOfElderly | medicine
deriving DecidableEq, Repr

/-- Iteration order of `for ward_area in WardArea`. -/
def WardArea.all : List WardArea := [.eau, .surgery, .itu, .careOfElderly, .medicine]

inductive ClinicType where
  | phar2psp | pharm3a | pharm1a | phar2pgc | pharm4a | phar5afc
deriving DecidableEq, Repr

inductive DispensarySlot where
  | slot9_11 | slot11_1 | slot1_3 | slot3_5
deriving DecidableEq, Repr

/-- `DISPENSARY_SLOTS` from `config.py`. -/
def DISPENSARY_SLOTS : List DispensarySlot :=
  [.slot9_11, .slot11_1, .slot1_3, .slot3_5]

/-! ### Association-list helpers (model of Python `dict`) -/

/-- `d.get(k)` / `d.get(k, default=None)` on an association list. -/
def alookup {α β : Type} [DecidableEq α] (k : α) : List (α × β) → Option β
  | [] => none
  | (k', v) :: rest => if k' = k then some v else alookup k rest

/-- `d[k] = v`: update the existing entry in place, else append (Python dicts
keep insertion order). -/
def aset {α β : Type} [DecidableEq α] (k : α) (v : β) : List (α × β) → List (α × β)
  | [] => [(k, v)]
  | (k', v') :: rest => if k' = k then (k, v) :: rest else (k', v') :: aset k v rest

/-- `del d[k]`. -/
def adel {α β : Type} [DecidableEq α] (k : α) : List (α × β) → List (α × β)
  | [] => []
  | (k', v') :: rest => if k' = k then rest else (k', v') :: adel k rest

/-- `list.remove(a)`: drop the first element equal to `a`. -/
def removeFirst {α : Type} [DecidableEq α] (a : α) : List α → List α
  | [] => []
  | x :: xs => if x = a then xs else x :: removeFirst a xs

/-! ### Staff (`models.py` `Pharmacist`) -/

structure PharmacistPreference where
  ward_area : WardArea
  rank : Nat
deriving DecidableEq, Repr

structure Pharmacist where
  id : String
  name : String
  email : String
  band : Band
  primary_directorate : WardArea
  itu_trained : Bool := false
  warfarin_trained : Bool := false
  default_pharmacist : Bool := false
  preferences : List PharmacistPreference := []
  availability : List (Day × Bool) := []
deriving DecidableEq, Repr

/-- `availability.get(day, False)`. -/
def Pharmacist.avail (p : Pharmacist) (d : Day) : Bool :=
  (alookup d p.availability).getD false

/-- `__post_init__` default: available every weekday. -/
def fullAvailability : List (Day × Bool) := Day.all.map (fun d => (d, true))

/-- `can_cover_dispensary`: band 6 or 7. -/
def Pharmacist.can_cover_dispensary (p : Pharmacist) : Bool :=
  decide (p.band = Band.band6) || decide (p.band = Band.band7)

/-- `can_cover_itu`. -/
def Pharmacist.can_cover_itu (p : Pharmacist) : Bool := p.itu_trained

/-! ### Clinics and the conflict calculator (`models.py` `Clinic`) -/

structure Clinic where
  clinic_type : ClinicType
  day : Day
  start_time : Int
  end_time : Int
  travel_time_before : Int := 30
  travel_time_after : Int := 30
deriving DecidableEq, Repr

/-- Start/end (minutes since midnight) of each fixed dispensary slot. -/
def slotTimes : DispensarySlot → Int × Int
  | .slot9_11 => (540, 660)
  | .slot11_1 => (660, 780)
  | .slot1_3 => (780, 900)
  | .slot3_5 => (900, 1020)

/-- `Clinic.conflicting_dispensary_slots`: slots whose interval overlaps the
clinic window widened by the travel buffers, by the half-open overlap test
`not (end_with_travel <= slot_start or start_with_travel >= slot_end)`. -/
def Clinic.conflicting_dispensary_slots (c : Clinic) : List DispensarySlot :=
  let startWithTravel := c.start_time - c.travel_time_before
  let endWithTravel := c.end_time + c.travel_time_after
  DISPENSARY_SLOTS.filter (fun slot =>
    let st := (slotTimes slot).1
    let en := (slotTimes slot).2
    !(decide (endWithTravel ≤ st) || decide (startWithTravel ≥ en)))

/-! ### Requirements and assignment records -/

structure WardRequirement where
  ward_area : WardArea
  day : Day
  min_pharmacists : Nat
  ideal_pharmacists : Nat
deriving DecidableEq, Repr

structure DispensaryShift where
  day : Day
  slot : DispensarySlot
  assigned_pharmacist : Option Pharmacist := none
deriving DecidableEq, Repr

structure WardAssignment where
  ward_area : WardArea
  day : Day
  pharmacist : Pharmacist
deriving DecidableEq, Repr

structure ClinicAssignment where
  clinic : Clinic
  day : Day
  pharmacist : Pharmacist
deriving DecidableEq, Repr

/-- `DEFAULT_LUNCH_START = 12:30`. -/
def DEFAULT_LUNCH_START : Int := 750

/-- `DEFAULT_LUNCH_END = 13:15`. -/
def DEFAULT_LUNCH_END : Int := 795

structure LunchCoverAssignment where
  day : Day
  pharmacist : Pharmacist
  start_time : Int := DEFAULT_LUNCH_START
  end_time : Int := DEFAULT_LUNCH_END
deriving DecidableEq, Repr

structure DailyRota where
  day : Day
  date : Int
  dispensary_shifts : List DispensaryShift := []
  ward_assignments : List WardAssignment := []
  clinic_assignments : List ClinicAssignment := []
  lunch_cover : Option LunchCoverAssignment := none
deriving DecidableEq, Repr

structure WeeklyRota where
  start_date : Int
  daily_rotas : List (Day × DailyRota)
deriving DecidableEq, Repr

/-- `WeeklyRota.__post_init__`: one empty `DailyRota` per weekday, dates
`start, start+1, ..., start+4`. -/
def initDailyRotas (start : Int) : List (Day × DailyRota) :=
  [(Day.monday, { day := Day.monday, date := start }),
   (Day.tuesday, { day := Day.tuesday, date := start + 1 }),
   (Day.wednesday, { day := Day.wednesday, date := start + 2 }),
   (Day.thursday, { day := Day.thursday, date := start + 3 }),
   (Day.friday, { day := Day.friday, date := start + 4 })]

/-! ### Default configuration (`config.py`) -/

/-- `DEFAULT_WARD_REQUIREMENTS`. -/
def DEFAULT_WARD_REQUIREMENTS : List ((WardArea × Day) × WardRequirement) :=
  [((WardArea.eau, Day.monday), ⟨WardArea.eau, Day.monday, 1, 2⟩),
   ((WardArea.eau, Day.tuesday), ⟨WardArea.eau, Day.tuesday, 1, 2⟩),
   ((WardArea.eau, Day.wednesday), ⟨WardArea.eau, Day.wednesday, 1, 2⟩),
   ((WardArea.eau, Day.thursday), ⟨WardArea.eau, Day.thursday, 1, 2⟩),
   ((WardArea.eau, Day.friday), ⟨WardArea.eau, Day.friday, 1, 2⟩),
   ((WardArea.surgery, Day.monday), ⟨WardArea.surgery, Day.monday, 1, 2⟩),
   ((WardArea.surgery, Day.tuesday), ⟨WardArea.surgery, Day.tuesday, 1, 2⟩),
   ((WardArea.surgery, Day.wednesday), ⟨WardArea.surgery, Day.wednesday, 1, 2⟩),
   ((WardArea.surgery, Day.thursday), ⟨WardArea.surgery, Day.thursday, 1, 2⟩),
   ((WardArea.surgery, Day.friday), ⟨WardArea.surgery, Day.friday, 1, 2⟩),
   ((WardArea.itu, Day.monday), ⟨WardArea.itu, Day.monday, 0, 1⟩),
   ((WardArea.itu, Day.tuesday), ⟨WardArea.itu, Day.tuesday, 0, 1⟩),
   ((WardArea.itu, Day.wednesday), ⟨WardArea.itu, Day.wednesday, 0, 1⟩),
   ((WardArea.itu, Day.thursday), ⟨WardArea.itu, Day.thursday, 0, 1⟩),
   ((WardArea.itu, Day.friday), ⟨WardArea.itu, Day.friday, 0, 1⟩),
   ((WardArea.careOfElderly, Day.monday), ⟨WardArea.careOfElderly, Day.monday, 1, 2⟩),
   ((WardArea.careOfElderly, Day.tuesday), ⟨WardArea.careOfElderly, Day.tuesday, 1, 2⟩),
   ((WardArea.careOfElderly, Day.wednesday), ⟨WardArea.careOfElderly, Day.wednesday, 1, 2⟩),
   ((WardArea.careOfElderly, Day.thursday), ⟨WardArea.careOfElderly, Day.thursday, 1, 2⟩),
   ((WardArea.careOfElderly, Day.friday), ⟨WardArea.careOfElderly, Day.friday, 1, 2⟩),
   ((WardArea.medicine, Day.monday), ⟨WardArea.medicine, Day.monday, 4, 6⟩),
   ((WardArea.medicine, Day.tuesday), ⟨WardArea.medicine, Day.tuesday, 4, 6⟩),
   ((WardArea.medicine, Day.wednesday), ⟨WardArea.medicine, Day.wednesday, 3, 6⟩),
   ((WardArea.medicine, Day.thursday), ⟨WardArea.medicine, Day.thursday, 3, 6⟩),
   ((WardArea.medicine, Day.friday), ⟨WardArea.medicine, Day.friday, 4, 6⟩)]

/-- `DEFAULT_CLINICS` (times in minutes: 9:00 = 540, 12:00 = 720,
13:00 = 780, 13:30 = 810, 15:00 = 900). -/
def DEFAULT_CLINICS : List Clinic :=
  [{ clinic_type := ClinicType.phar2psp, day := Day.tuesday, start_time := 780, end_time := 900 },
   { clinic_type := ClinicType.pharm1a, day := Day.monday, start_time := 540, end_time := 780 },
   { clinic_type := ClinicType.phar2pgc, day := Day.tuesday, start_time := 780, end_time := 900 },
   { clinic_type := ClinicType.pharm3a, day := Day.wednesday, start_time := 540, end_time := 810 },
   { clinic_type := ClinicType.pharm4a, day := Day.thursday, start_time := 540, end_time := 720 },
   { clinic_type := ClinicType.phar5afc, day := Day.friday, start_time := 540, end_time := 780 }]

/-! ### The scheduler (`scheduler.py` `RotaScheduler`) -/

structure RotaScheduler where
  pharmacists : List Pharmacist
  ward_requirements : List ((WardArea × Day) × WardRequirement)
  clinics : List Clinic
deriving DecidableEq, Repr

/-- `RotaScheduler.__init__`: `ward_requirements or DEFAULT_WARD_REQUIREMENTS`
and `clinics or DEFAULT_CLINICS` (Python `or` also replaces an empty list). -/
def RotaScheduler.make (pharmacists : List Pharmacist)
    (ward_requirements : List ((WardArea × Day) × WardRequirement))
    (clinics : List Clinic) : RotaScheduler :=
  { pharmacists := pharmacists,
    ward_requirements :=
      if ward_requirements.isEmpty then DEFAULT_WARD_REQUIREMENTS else ward_requirements,
    clinics := if clinics.isEmpty then DEFAULT_CLINICS else clinics }

/-- Available pharmacists for a day:
`[p for p in self.pharmacists if p.availability.get(day, False)]`. -/
def availableOn (s : RotaScheduler) (day : Day) : List Pharmacist :=
  s.pharmacists.filter (fun p => p.avail day)

/-- `[clinic for clinic in self.clinics if clinic.day == day]`. -/
def clinicsOn (s : RotaScheduler) (day : Day) : List Clinic :=
  s.clinics.filter (fun c => decide (c.day = day))

/-- `sorted(clinics, key=lambda c: 0 if c.clinic_type == PHAR2PSP else 1)`
(a stable sort by a two-valued key). -/
def sortClinics (cs : List Clinic) : List Clinic :=
  cs.filter (fun c => decide (c.clinic_type = ClinicType.phar2psp)) ++
    cs.filter (fun c => !decide (c.clinic_type = ClinicType.phar2psp))

/-- The loop of `_assign_clinics`: for each clinic take the first available
warfarin-trained pharmacist not already holding a clinic assignment today. -/
def assignClinicsLoop (day : Day) (available : List Pharmacist) :
    List Clinic → List ClinicAssignment → List ClinicAssignment
  | [], acc => acc
  | c :: rest, acc =>
    let suitable := available.filter (fun p =>
      p.warfarin_trained && !decide (p ∈ acc.map (fun a => a.pharmacist)))
    match suitable with
    | [] => assignClinicsLoop day available rest acc
    | p :: _ => assignClinicsLoop day available rest
        (acc ++ [{ clinic := c, day := day, pharmacist := p }])

/-- `_assign_clinics` applied to the day's clinics. -/
def clinicPhase (s : RotaScheduler) (day : Day) : List ClinicAssignment :=
  assignClinicsLoop day (availableOn s day) (sortClinics (clinicsOn s day)) []

/-! ### Python sets of `Pharmacist` values raise `TypeError`

`Pharmacist` is a plain dataclass with `eq=True, frozen=False`, so CPython
sets `__hash__ = None` and instances are unhashable.  Building a non-empty
`set` of pharmacists raises `TypeError` at the first insertion, and a
membership probe `p in s` hashes `p` first and raises even against an empty
set.  The scheduler performs both operations, so every code path that
reaches them is modelled in an `Except` monad. -/

inductive PyError where
  | typeError
deriving DecidableEq, Repr

/-- Building a Python `set` from a list of `Pharmacist` values: the first
insertion hashes the element and raises `TypeError`, so only the empty
construction succeeds (with the empty set). -/
def mkPharmacistSet (l : List Pharmacist) : Except PyError (List Pharmacist) :=
  match l with
  | [] => Except.ok []
  | _ :: _ => Except.error PyError.typeError

/-- `[p for p in l if p not in s]` over a Python set `s` of pharmacists: the
first membership probe hashes `p` and raises `TypeError`, so the
comprehension succeeds only when `l` is empty. -/
def filterNotInPharmSet (l : List Pharmacist) (_s : List Pharmacist) :
    Except PyError (List Pharmacist) :=
  match l with
  | [] => Except.ok []
  | _ :: _ => Except.error PyError.typeError

/-- Line 92, `assigned_clinic_pharmacists = {assign.pharmacist for ...}`:
raises `TypeError` as soon as any clinic assignment exists. -/
def clinicPharmacists (s : RotaScheduler) (day : Day) :
    Except PyError (List Pharmacist) :=
  mkPharmacistSet ((clinicPhase s day).map (fun a => a.pharmacist))

/-- Line 95, `remaining_pharmacists = [p for p in available_pharmacists if p
not in assigned_clinic_pharmacists]`: the membership probe raises whenever
any pharmacist is available. -/
def remainingAfterClinics (s : RotaScheduler) (day : Day) :
    Except PyError (List Pharmacist) :=
  match clinicPharmacists s day with
  | Except.error e => Except.error e
  | Except.ok ac => filterNotInPharmSet (availableOn s day) ac

/-- Band filter plus the fall-back of `_assign_dispensary_shifts`:
if no band-6/7 pharmacist is available, use the whole pool. -/
def dispPool (available : List Pharmacist) : List Pharmacist :=
  let dispensary := available.filter (fun p => p.can_cover_dispensary)
  if dispensary.isEmpty && !available.isEmpty then available else dispensary

/-- Loop body of the per-slot logic of `_assign_dispensary_shifts` (lines
183-212): building the `clinic_conflicts` set raises `TypeError` at the
first conflicting clinic assignment (line 187), the conflict-exclusion
probe raises for any non-empty pool (line 190), and the `already_assigned`
set comprehension raises if any earlier shift was assigned (line 193); only
an empty pool with no conflicting clinic assignment reaches the unassigned
fall-through. -/
def chooseForSlot (day : Day) (cas : List ClinicAssignment) (pool : List Pharmacist)
    (acc : List DispensaryShift) (slot : DispensarySlot) :
    Except PyError DispensaryShift :=
  match mkPharmacistSet ((cas.filter (fun ca =>
      decide (slot ∈ ca.clinic.conflicting_dispensary_slots))).map
        (fun ca => ca.pharmacist)) with
  | Except.error e => Except.error e
  | Except.ok clinicConflicts =>
    match filterNotInPharmSet pool clinicConflicts with
    | Except.error e => Except.error e
    | Except.ok availableForSlot =>
      match mkPharmacistSet (acc.filterMap (fun sh => sh.assigned_pharmacist)) with
      | Except.error e => Except.error e
      | Except.ok alreadyAssigned =>
        match filterNotInPharmSet availableForSlot alreadyAssigned with
        | Except.error e => Except.error e
        | Except.ok preferred =>
          Except.ok (match preferred, availableForSlot with
            | p :: _, _ => { day := day, slot := slot, assigned_pharmacist := some p }
            | [], q :: _ => { day := day, slot := slot, assigned_pharmacist := some q }
            | [], [] => { day := day, slot := slot, assigned_pharmacist := none })

/-- The per-slot loop of `_assign_dispensary_shifts`; the first raising slot
aborts the whole call. -/
def perSlotLoop (day : Day) (cas : List ClinicAssignment) (pool : List Pharmacist) :
    List DispensarySlot → List DispensaryShift → Except PyError (List DispensaryShift)
  | [], acc => Except.ok acc
  | slot :: rest, acc =>
    match chooseForSlot day cas pool acc slot with
    | Except.error e => Except.error e
    | Except.ok sh => perSlotLoop day cas pool rest (acc ++ [sh])

/-- `_assign_dispensary_shifts`: if any pool member is flagged
`default_pharmacist`, the first one takes every slot — this branch builds no
pharmacist set and always succeeds; otherwise run the per-slot loop, which
raises on any non-empty pool. -/
def assignDispensaryShifts (day : Day) (cas : List ClinicAssignment)
    (available : List Pharmacist) : Except PyError (List DispensaryShift) :=
  let pool := dispPool available
  match pool.filter (fun p => p.default_pharmacist) with
  | d :: _ => Except.ok (DISPENSARY_SLOTS.map (fun slot =>
      { day := day, slot := slot, assigned_pharmacist := some d }))
  | [] => perSlotLoop day cas pool DISPENSARY_SLOTS []

/-- The dispensary shifts produced for a day, after the pool hand-over of
line 95 (which itself raises whenever staff are available). -/
def dispensaryPhase (s : RotaScheduler) (day : Day) :
    Except PyError (List DispensaryShift) :=
  match remainingAfterClinics s day with
  | Except.error e => Except.error e
  | Except.ok rem => assignDispensaryShifts day (clinicPhase s day) rem

/-- The set test of `_get_dispensary_pharmacist` (line 311): the set
comprehension over the assigned pharmacists raises `TypeError` as soon as
any shift is assigned; on an all-unassigned list the set is empty and the
length-one test yields `None`. -/
def dispensaryHolder (shifts : List DispensaryShift) :
    Except PyError (Option Pharmacist) :=
  match mkPharmacistSet (shifts.filterMap (fun sh => sh.assigned_pharmacist)) with
  | Except.error e => Except.error e
  | Except.ok dps => Except.ok (if dps.length = 1 then dps.head? else none)

/-- `_get_dispensary_pharmacist` reads only the dispensary shifts of the
rota. -/
def DailyRota.getDispensaryPharmacist (r : DailyRota) :
    Except PyError (Option Pharmacist) :=
  dispensaryHolder r.dispensary_shifts

/-- Step 3 of `_generate_daily_rota` (lines 103-115): when the holder test
yields a pharmacist, the candidate comprehension probes the clinic set
(line 107) and raises whenever staff are available; with no available staff
it yields no candidate and no lunch cover. -/
def lunchPhase (s : RotaScheduler) (day : Day) :
    Except PyError (Option LunchCoverAssignment) :=
  match dispensaryPhase s day with
  | Except.error e => Except.error e
  | Except.ok shifts =>
    match dispensaryHolder shifts with
    | Except.error e => Except.error e
    | Except.ok none => Except.ok none
    | Except.ok (some dp) =>
      match clinicPharmacists s day with
      | Except.error e => Except.error e
      | Except.ok ac =>
        match filterNotInPharmSet (availableOn s day) ac with
        | Except.error e => Except.error e
        | Except.ok base =>
          Except.ok (match base.filter (fun p => !decide (p = dp)) with
            | c :: _ => some { day := day, pharmacist := c }
            | [] => none)

/-- `already_assigned` before step 4 (lines 118-120): the union of the two
empty pharmacist sets succeeds, but `add` of a lunch-cover pharmacist
hashes it and raises. -/
def alreadyAssignedSet (s : RotaScheduler) (day : Day) :
    Except PyError (List Pharmacist) :=
  match clinicPharmacists s day with
  | Except.error e => Except.error e
  | Except.ok ac =>
    match dispensaryPhase s day with
    | Except.error e => Except.error e
    | Except.ok shifts =>
      match mkPharmacistSet (shifts.filterMap (fun sh => sh.assigned_pharmacist)) with
      | Except.error e => Except.error e
      | Except.ok ad =>
        match lunchPhase s day with
        | Except.error e => Except.error e
        | Except.ok (some _) => Except.error PyError.typeError
        | Except.ok none => Except.ok (ac ++ ad)

/-- Line 122: the remaining-pool comprehension probes the
`already_assigned` set and raises whenever staff are available. -/
def remainingForWards (s : RotaScheduler) (day : Day) :
    Except PyError (List Pharmacist) :=
  match alreadyAssignedSet s day with
  | Except.error e => Except.error e
  | Except.ok aa => filterNotInPharmSet (availableOn s day) aa

/-- Home-ward pass of `_assign_ward_areas`: assign each remaining pharmacist
to their primary directorate while its count is below the ideal. -/
def homeWardLoop (wr : List ((WardArea × Day) × WardRequirement)) (day : Day) :
    List Pharmacist → List Pharmacist × List WardAssignment →
      List Pharmacist × List WardAssignment
  | [], st => st
  | p :: rest, (unassigned, was) =>
    let area := p.primary_directorate
    match alookup (area, day) wr with
    | some req =>
      if (was.filter (fun a => decide (a.ward_area = area))).length < req.ideal_pharmacists then
        homeWardLoop wr day rest
          (removeFirst p unassigned, was ++ [{ ward_area := area, day := day, pharmacist := p }])
      else homeWardLoop wr day rest (unassigned, was)
    | none => homeWardLoop wr day rest (unassigned, was)

/-- The preference scan of the fill-to-minimum pass: the pharmacist whose
stated preference for `w` has the strictly lowest rank (first wins ties);
`none` when nobody states a preference for `w`. -/
def findBestMatch (w : WardArea) (pool : List Pharmacist) : Option Pharmacist :=
  let best := pool.foldl (fun st p =>
    p.preferences.foldl (fun st' pref =>
      if decide (pref.ward_area = w) &&
          (match st'.2 with | none => true | some b => decide (pref.rank < b)) then
        (some p, some pref.rank)
      else st') st) ((none : Option Pharmacist), (none : Option Nat))
  match best.1 with
  | some p => some p
  | none => pool.head?

/-- The `while` loop of the fill-to-minimum pass for one ward; the fuel is
the pool size, enough because each iteration removes one pharmacist. -/
def fillWard (day : Day) (w : WardArea) (req : WardRequirement) :
    Nat → List Pharmacist → List WardAssignment → List Pharmacist × List WardAssignment
  | 0, unassigned, was => (unassigned, was)
  | Nat.succ fuel, unassigned, was =>
    if (was.filter (fun a => decide (a.ward_area = w))).length < req.min_pharmacists ∧
        unassigned ≠ [] then
      match findBestMatch w unassigned with
      | some p => fillWard day w req fuel (removeFirst p unassigned)
          (was ++ [{ ward_area := w, day := day, pharmacist := p }])
      | none => (unassigned, was)
    else (unassigned, was)

/-- Fill-to-minimum pass over all wards in enumeration order, skipping wards
without a requirement and skipping ITU. -/
def fillToMinimum (wr : List ((WardArea × Day) × WardRequirement)) (day : Day) :
    List WardArea → List Pharmacist × List WardAssignment →
      List Pharmacist × List WardAssignment
  | [], st => st
  | w :: rest, (unassigned, was) =>
    match alookup (w, day) wr with
    | none => fillToMinimum wr day rest (unassigned, was)
    | some req =>
      if w = WardArea.itu then fillToMinimum wr day rest (unassigned, was)
      else
        let st' := fillWard day w req unassigned.length unassigned was
        fillToMinimum wr day rest st'

/-- `_assign_ward_areas`: ITU pass, then home-ward pass, then
fill-to-minimum. -/
def assignWardAreas (wr : List ((WardArea × Day) × WardRequirement)) (day : Day)
    (unassigned : List Pharmacist) : List WardAssignment :=
  let st0 :=
    match alookup (WardArea.itu, day) wr with
    | some req =>
      if req.min_pharmacists > 0 then
        match unassigned.filter (fun p => p.can_cover_itu) with
        | p :: _ => (removeFirst p unassigned,
            [({ ward_area := WardArea.itu, day := day, pharmacist := p } : WardAssignment)])
        | [] => (unassigned, [])
      else (unassigned, [])
    | none => (unassigned, [])
  let st1 := homeWardLoop wr day st0.1 st0
  let st2 := fillToMinimum wr day WardArea.all st1
  st2.2

/-- The ward assignments produced for a day; `_assign_ward_areas` itself
hashes nothing, so it succeeds once it receives its pool. -/
def wardPhase (s : RotaScheduler) (day : Day) :
    Except PyError (List WardAssignment) :=
  match remainingForWards s day with
  | Except.error e => Except.error e
  | Except.ok rem => Except.ok (assignWardAreas s.ward_requirements day rem)

/-- `_generate_daily_rota`: the empty rota when nobody is available (the
only returning path); otherwise the phases run in order and the first
`TypeError` (line 92 when a clinic was assigned, line 95 otherwise)
propagates to the caller. -/
def generateDailyRota (s : RotaScheduler) (day : Day) (date : Int) :
    Except PyError DailyRota :=
  if (availableOn s day).isEmpty then Except.ok { day := day, date := date }
  else
    match dispensaryPhase s day with
    | Except.error e => Except.error e
    | Except.ok shifts =>
      match mkPharmacistSet (shifts.filterMap (fun sh => sh.assigned_pharmacist)) with
      | Except.error e => Except.error e
      | Except.ok _ =>
        match lunchPhase s day with
        | Except.error e => Except.error e
        | Except.ok lunch =>
          match wardPhase s day with
          | Except.error e => Except.error e
          | Except.ok wards =>
            Except.ok
              { day := day, date := date, dispensary_shifts := shifts,
                ward_assignments := wards, clinic_assignments := clinicPhase s day,
                lunch_cover := lunch }

/-! ### The weekly balancer (`_balance_dispensary_shifts`) -/

/-- `shift_counts`: per pharmacist id, the number of assigned dispensary
shifts across the week (ids with zero shifts never enter the dict). -/
def countShifts (rotas : List (Day × DailyRota)) : List (String × Nat) :=
  rotas.foldl (fun counts e =>
    e.2.dispensary_shifts.foldl (fun counts' sh =>
      match sh.assigned_pharmacist with
      | some p => aset p.id ((alookup p.id counts').getD 0 + 1) counts'
      | none => counts') counts) []

/-- `overloaded`: ids whose count exceeds 3. -/
def overloadedOf (counts : List (String × Nat)) : List (String × Nat) :=
  counts.filter (fun kc => decide (3 < kc.2))

/-- `underloaded`: ids whose count is below 2. -/
def underloadedOf (counts : List (String × Nat)) : List (String × Nat) :=
  counts.filter (fun kc => decide (kc.2 < 2))

/-- The inner scan of the balancer: the first underloaded id that names a
rostered pharmacist available on this day. -/
def findRecipient (ps : List Pharmacist) (d : Day) : List (String × Nat) → Option Pharmacist
  | [] => none
  | (pid, _) :: rest =>
    match ps.find? (fun p => decide (p.id = pid) && p.avail d) with
    | some p => some p
    | none => findRecipient ps d rest

/-- One shift of the balancer sweep: reassign an assigned shift held by an
overloaded pharmacist to the first available underloaded pharmacist, updating
both count maps. -/
def balanceShiftStep (ps : List Pharmacist) (d : Day) (sh : DispensaryShift)
    (ov un : List (String × Nat)) :
    DispensaryShift × List (String × Nat) × List (String × Nat) :=
  match sh.assigned_pharmacist with
  | none => (sh, ov, un)
  | some p =>
    if (alookup p.id ov).isSome then
      match findRecipient ps d un with
      | some r =>
        let newOv := (alookup p.id ov).getD 0 - 1
        let ov' := if newOv ≤ 3 then adel p.id ov else aset p.id newOv ov
        let newUn := (alookup r.id un).getD 0 + 1
        let un' := if 2 ≤ newUn then adel r.id un else aset r.id newUn un
        ({ sh with assigned_pharmacist := some r }, ov', un')
      | none => (sh, ov, un)
    else (sh, ov, un)

/-- Balancer sweep over one day's shifts. -/
def balanceShiftsDay (ps : List Pharmacist) (d : Day) :
    List DispensaryShift → List (String × Nat) → List (String × Nat) →
      List DispensaryShift × List (String × Nat) × List (String × Nat)
  | [], ov, un => ([], ov, un)
  | sh :: rest, ov, un =>
    let step := balanceShiftStep ps d sh ov un
    let tail := balanceShiftsDay ps d rest step.2.1 step.2.2
    (step.1 :: tail.1, tail.2)

/-- Balancer sweep over the week; `break` once no overloaded ids remain. -/
def balanceLoop (ps : List Pharmacist) :
    List (Day × DailyRota) → List (String × Nat) → List (String × Nat) →
      List (Day × DailyRota)
  | [], _, _ => []
  | (d, r) :: rest, ov, un =>
    if ov.isEmpty then (d, r) :: rest
    else
      let step := balanceShiftsDay ps d r.dispensary_shifts ov un
      (d, { r with dispensary_shifts := step.1 }) ::
        balanceLoop ps rest step.2.1 step.2.2

/-- `_balance_dispensary_shifts`: a no-op when either classified set is
empty, else the week-wide sweep. -/
def balanceDispensaryShifts (s : RotaScheduler) (w : WeeklyRota) : WeeklyRota :=
  let counts := countShifts w.daily_rotas
  let ov := overloadedOf counts
  let un := underloadedOf counts
  if ov.isEmpty || un.isEmpty then w
  else { w with daily_rotas := balanceLoop s.pharmacists w.daily_rotas ov un }

/-- The `for day in Day` loop of `generate_weekly_rota`: the first day that
raises aborts the call. -/
def buildDailyRotas (s : RotaScheduler) :
    List (Day × DailyRota) → Except PyError (List (Day × DailyRota))
  | [] => Except.ok []
  | (d, r) :: rest =>
    match generateDailyRota s d r.date with
    | Except.error e => Except.error e
    | Except.ok dr =>
      match buildDailyRotas s rest with
      | Except.error e => Except.error e
      | Except.ok tail => Except.ok ((d, dr) :: tail)

/-- `generate_weekly_rota`: build each weekday on contiguous dates, then run
the balancer once; returns only when every day returned. -/
def generateWeeklyRota (s : RotaScheduler) (start_date : Int) :
    Except PyError WeeklyRota :=
  match buildDailyRotas s (initDailyRotas start_date) with
  | Except.error e => Except.error e
  | Except.ok rotas =>
    Except.ok (balanceDispensaryShifts s
      { start_date := start_date, daily_rotas := rotas })

/-! ### Concrete rosters used by the counterexamples and witnesses -/

/-- Band-6 designated dispensary pharmacist. -/
def pA : Pharmacist :=
  { id := "a", name := "A", email := "a@x", band := Band.band6,
    primary_directorate := WardArea.medicine, default_pharmacist := true,
    availability := fullAvailability }

/-- A second band-6 designated dispensary pharmacist. -/
def pB : Pharmacist :=
  { id := "b", name := "B", email := "b@x", band := Band.band6,
    primary_directorate := WardArea.surgery, default_pharmacist := true,
    availability := fullAvailability }

/-- Designated dispensary pharmacist who is also warfarin-trained. -/
def pD : Pharmacist :=
  { id := "d", name := "D", email := "d@x", band := Band.band6,
    primary_directorate := WardArea.medicine, warfarin_trained := true,
    default_pharmacist := true, availability := fullAvailability }

/-- Plain band-6 pharmacist. -/
def pE : Pharmacist :=
  { id := "e", name := "E", email := "e@x", band := Band.band6,
    primary_directorate := WardArea.surgery, availability := fullAvailability }

/-- Sole warfarin-trained band-6 pharmacist. -/
def pW : Pharmacist :=
  { id := "w", name := "W", email := "w@x", band := Band.band6,
    primary_directorate := WardArea.medicine, warfarin_trained := true,
    availability := fullAvailability }

/-- Roster of `pD` and `pE` with the default configuration. -/
def schedDE : RotaScheduler :=
  RotaScheduler.make [pD, pE] [] []

/-- Roster of `pW` alone with the default configuration. -/
def schedW : RotaScheduler :=
  RotaScheduler.make [pW] [] []

/-- An explicit all-false availability map (a non-empty dict, so the
`__post_init__` all-available default does not fire). -/
def noAvailability : List (Day × Bool) := Day.all.map (fun d => (d, false))

/-- Rostered pharmacist who is available on no weekday at all. -/
def pNever : Pharmacist :=
  { id := "never", name := "Never", email := "never@x", band := Band.band6,
    primary_directorate := WardArea.medicine, availability := noAvailability }

/-- Roster whose only member is available on no day: the single kind of
non-empty roster for which generation returns. -/
def schedNever : RotaScheduler :=
  RotaScheduler.make [pNever] [] []

/-- Scheduler with the empty roster. -/
def schedEmpty : RotaScheduler :=
  RotaScheduler.make [] [] []

/-- A single unassigned Monday morning dispensary shift. -/
def shUnassigned : DispensaryShift :=
  { day := Day.monday, slot := DispensarySlot.slot9_11 }

/-- A Monday rota holding only `shUnassigned`. -/
def rUnassigned : DailyRota :=
  { day := Day.monday, date := 0, dispensary_shifts := [shUnassigned] }

/-- A one-entry week with a single unassigned dispensary shift. -/
def wUnassigned : WeeklyRota :=
  { start_date := 0, daily_rotas := [(Day.monday, rUnassigned)] }

/-! ### Relations used to describe what the balancer preserves -/

/-- How the balancer may change one dispensary shift: day and slot are kept,
and a shift that was unassigned stays unassigned. -/
def ShiftSim (a b : DispensaryShift) : Prop :=
  a.day = b.day ∧ a.slot = b.slot ∧
    (a.assigned_pharmacist = none → b.assigned_pharmacist = none)

/-- How the balancer may change one day entry of the week: everything is kept
except that each dispensary shift evolves along `ShiftSim`. -/
def RotaSim (a b : Day × DailyRota) : Prop :=
  a.1 = b.1 ∧ a.2.day = b.2.day ∧ a.2.date = b.2.date ∧
    List.Forall₂ ShiftSim a.2.dispensary_shifts b.2.dispensary_shifts ∧
    a.2.ward_assignments = b.2.ward_assignments ∧
    a.2.clinic_assignments = b.2.clinic_assignments ∧
    a.2.lunch_cover = b.2.lunch_cover

/-- Whether a dispensary shift is assigned to the pharmacist id `pid`. -/
def assignedToId (pid : String) (sh : DispensaryShift) : Bool :=
  match sh.assigned_pharmacist with
  | some p => decide (p.id = pid)
  | none => false

/-- Number of dispensary shifts across a list of day entries assigned to the
id `pid`. -/
def rotasAssignedCount (pid : String) (rotas : List (Day × DailyRota)) : Nat :=
  ((rotas.map (fun e => e.2.dispensary_shifts)).flatten).countP (assignedToId pid)

/-- Number of dispensary shifts of the week assigned to the id `pid`. -/
def weekAssignedCount (pid : String) (w : WeeklyRota) : Nat :=
  rotasAssignedCount pid w.daily_rotas

/-! ### Claim C8: conflict set of a 13:00 to 15:00 clinic -/

/-- C8: a clinic running 13:00 to 15:00 with 30-minute travel buffers on both
sides conflicts with exactly the 11:00 to 13:00, 13:00 to 15:00 and 15:00 to
17:00 dispensary slots, and not with the 9:00 to 11:00 slot, whatever its
type tag or weekday. -/
theorem C8_clinic_13_15_conflicts (ct : ClinicType) (d : Day) :
    Clinic.conflicting_dispensary_slots
        { clinic_type := ct, day := d, start_time := 780, end_time := 900 } =
      [DispensarySlot.slot11_1, DispensarySlot.slot1_3, DispensarySlot.slot3_5] ∧
    DispensarySlot.slot9_11 ∉ Clinic.conflicting_dispensary_slots
        { clinic_type := ct, day := d, start_time := 780, end_time := 900 } := by
  constructor
  · rfl
  · intro h
    rw [show Clinic.conflicting_dispensary_slots
        { clinic_type := ct, day := d, start_time := 780, end_time := 900 } =
      [DispensarySlot.slot11_1, DispensarySlot.slot1_3, DispensarySlot.slot3_5] from rfl] at h
    simp at h

/-! ### Shape of the generation results

Whenever any pharmacist is available on a day, `_generate_daily_rota`
raises `TypeError` before the dispensary phase: at the line-92 set if a
clinic was assigned, at the line-95 membership probe otherwise.  The only
returning daily rota is the empty early-return rota, and the only returning
weeks are those where nobody is available on any day. -/

theorem remainingAfterClinics_error (s : RotaScheduler) (day : Day)
    (h : availableOn s day ≠ []) :
    remainingAfterClinics s day = Except.error PyError.typeError := by
  unfold remainingAfterClinics clinicPharmacists
  rcases hcl : (clinicPhase s day).map (fun a => a.pharmacist) with _ | ⟨x, xs⟩ <;>
    rw [hcl]
  · rcases hav : availableOn s day with _ | ⟨q, qs⟩
    · exact absurd hav h
    · rfl
  · rfl

theorem generateDailyRota_error (s : RotaScheduler) (day : Day) (date : Int)
    (h : availableOn s day ≠ []) :
    generateDailyRota s day date = Except.error PyError.typeError := by
  have hne : ¬ (availableOn s day).isEmpty = true := by
    simp [List.isEmpty_iff, h]
  unfold generateDailyRota
  rw [if_neg hne]
  unfold dispensaryPhase
  rw [remainingAfterClinics_error s day h]

theorem generateDailyRota_ok_shape (s : RotaScheduler) (day : Day) (date : Int)
    (r : DailyRota) (h : generateDailyRota s day date = Except.ok r) :
    availableOn s day = [] ∧ r = { day := day, date := date } := by
  by_cases hav : availableOn s day = []
  · refine ⟨hav, ?_⟩
    unfold generateDailyRota at h
    rw [if_pos] at h
    · exact (Except.ok.inj h).symm
    · simp [List.isEmpty_iff, hav]
  · rw [generateDailyRota_error s day date hav] at h
    cases h

theorem buildDailyRotas_ok (s : RotaScheduler) :
    ∀ (l rotas : List (Day × DailyRota)), buildDailyRotas s l = Except.ok rotas →
      rotas = l.map (fun e => (e.1, ({ day := e.1, date := e.2.date } : DailyRota))) ∧
      ∀ e ∈ l, availableOn s e.1 = [] := by
  intro l
  induction l with
  | nil =>
    intro rotas h
    refine ⟨(Except.ok.inj h).symm, ?_⟩
    intro e he
    cases he
  | cons e rest ih =>
    intro rotas h
    obtain ⟨d, r⟩ := e
    rw [buildDailyRotas] at h
    split at h
    · cases h
    · rename_i dr hdr
      split at h
      · cases h
      · rename_i tail htail
        cases h
        obtain ⟨hshape, havrest⟩ := ih tail htail
        obtain ⟨hav1, hr1⟩ := generateDailyRota_ok_shape s d r.date dr hdr
        subst hr1
        subst hshape
        refine ⟨rfl, ?_⟩
        intro e' he'
        rcases List.mem_cons.mp he' with rfl | h'
        · exact hav1
        · exact havrest e' h'

theorem generateWeeklyRota_ok_shape (s : RotaScheduler) (start : Int) (w : WeeklyRota)
    (h : generateWeeklyRota s start = Except.ok w) :
    w = { start_date := start, daily_rotas := initDailyRotas start } ∧
    ∀ e ∈ initDailyRotas start, availableOn s e.1 = [] := by
  unfold generateWeeklyRota at h
  split at h
  · cases h
  · rename_i rotas hrotas
    cases h
    obtain ⟨hshape, hav⟩ := buildDailyRotas_ok s _ rotas hrotas
    subst hshape
    exact ⟨rfl, hav⟩

/-! ### Claim C1: empty roster -/

/-- C1 counterexample: with the empty staff roster, `generate_weekly_rota`
is not rejected and raises nothing: every day takes the no-available-staff
early return (which touches no `Pharmacist` set) and the call returns a
complete five-day `WeeklyRota` carrying no assignments. -/
theorem C1_counterexample :
    generateWeeklyRota schedEmpty 0 =
      Except.ok { start_date := 0, daily_rotas := initDailyRotas 0 } ∧
    (initDailyRotas 0).length = 5 ∧
    ∀ e ∈ initDailyRotas 0, e.2.dispensary_shifts = [] ∧
      e.2.ward_assignments = [] ∧ e.2.clinic_assignments = [] ∧
      e.2.lunch_cover = none := by
  refine ⟨rfl, rfl, ?_⟩
  decide

/-- C1 amended: an empty staff roster is not rejected and no failure is
reported; for every start date the generator runs to completion and returns
the post-init week of five empty daily rotas. -/
theorem C1_empty_roster_full_empty_week (start : Int) :
    generateWeeklyRota schedEmpty start =
      Except.ok { start_date := start, daily_rotas := initDailyRotas start } := rfl

/-! ### Claim C2: the designated-dispensary special case -/

/-- C2 counterexample: first scenario — with two flagged eligible pool
members the phase still hands every slot to the first one, so the special
case is not conditioned on "exactly one".  Second scenario — `pD` is the
only flagged, available, dispensary-eligible staff member of `schedDE`, yet
Monday generation raises `TypeError` (the Monday clinic takes `pD`, so the
line-92 set is non-empty): `pD` holds no dispensary slot that day because
no rota is produced at all. -/
theorem C2_counterexample :
    (assignDispensaryShifts Day.monday [] [pA, pB] =
        Except.ok (DISPENSARY_SLOTS.map (fun slot =>
          { day := Day.monday, slot := slot, assigned_pharmacist := some pA })) ∧
      ((dispPool [pA, pB]).filter (fun p => p.default_pharmacist)).length = 2) ∧
    (schedDE.pharmacists.filter (fun p =>
        p.default_pharmacist && p.avail Day.monday && p.can_cover_dispensary) = [pD] ∧
      generateDailyRota schedDE Day.monday 0 = Except.error PyError.typeError) := by
  refine ⟨⟨rfl, ?_⟩, ?_, rfl⟩ <;> decide

/-- C2 amended: whenever at least one member of the pool handed to
`_assign_dispensary_shifts` (after the band filter and its fall-back) is
flagged `default_pharmacist`, the call succeeds and the first such member
receives all four slots, skipping the per-slot logic; exactly one flagged
member is the special case `ps = []`.  This is also the only hash-free path
of the phase; the full daily generation never reaches it, raising
`TypeError` beforehand whenever staff are available. -/
theorem C2_dedicated_takes_all_slots (day : Day) (cas : List ClinicAssignment)
    (available : List Pharmacist) (p : Pharmacist) (ps : List Pharmacist)
    (h : (dispPool available).filter (fun q => q.default_pharmacist) = p :: ps) :
    assignDispensaryShifts day cas available =
      Except.ok (DISPENSARY_SLOTS.map (fun slot =>
        { day := day, slot := slot, assigned_pharmacist := some p })) := by
  unfold assignDispensaryShifts
  simp only [h]

/-- Witness for C2: in the pool of `pD` and `pE`, exactly one member is
flagged and `pD` takes all four slots. -/
theorem C2_dedicated_takes_all_slots_witness :
    assignDispensaryShifts Day.monday [] [pD, pE] =
      Except.ok (DISPENSARY_SLOTS.map (fun slot =>
        { day := Day.monday, slot := slot, assigned_pharmacist := some pD })) :=
  C2_dedicated_takes_all_slots Day.monday [] [pD, pE] pD [] (by decide)

/-! ### Claim C3: clinic-assigned staff and dispensary slots -/

/-- C3 counterexample: `pW` is warfarin-trained and available on Monday and
the Monday clinic does not conflict with the 3pm to 5pm slot, yet the
generation raises `TypeError` at the line-92 set of clinic-assigned staff:
no rota exists in which `pW` (or anyone) takes any dispensary slot, so
clinic-assigned staff certainly never take a non-conflicting one. -/
theorem C3_counterexample :
    pW.warfarin_trained = true ∧ pW.avail Day.monday = true ∧
    (∃ c ∈ clinicsOn schedW Day.monday,
      DispensarySlot.slot3_5 ∉ c.conflicting_dispensary_slots) ∧
    generateDailyRota schedW Day.monday 0 = Except.error PyError.typeError := by
  refine ⟨rfl, rfl, ?_, rfl⟩
  decide

/-- C3 amended: a clinic-assigned staff member never receives any
dispensary slot, conflicting or not: a day with available staff raises
`TypeError` (at the line-92 set when a clinic was assigned, at the line-95
pool filter otherwise) before the per-slot conflict check can run, and a
returning daily rota carries no clinic assignments and no dispensary
shifts at all — there is no input on which a clinic-assigned staff member
receives a non-conflicting slot. -/
theorem C3_clinic_staff_excluded_from_all_slots (s : RotaScheduler) (day : Day)
    (date : Int) :
    (∀ r, generateDailyRota s day date = Except.ok r →
      r.clinic_assignments = [] ∧ r.dispensary_shifts = []) ∧
    (availableOn s day ≠ [] →
      generateDailyRota s day date = Except.error PyError.typeError) := by
  constructor
  · intro r hr
    obtain ⟨-, hshape⟩ := generateDailyRota_ok_shape s day date r hr
    subst hshape
    exact ⟨rfl, rfl⟩
  · exact generateDailyRota_error s day date

/-- Witness for C3: the returning Monday rota of `schedNever` has no clinic
assignments and no dispensary shifts. -/
theorem C3_clinic_staff_excluded_witness :
    ({ day := Day.monday, date := 0 } : DailyRota).clinic_assignments = [] ∧
    ({ day := Day.monday, date := 0 } : DailyRota).dispensary_shifts = [] :=
  (C3_clinic_staff_excluded_from_all_slots schedNever Day.monday 0).1
    { day := Day.monday, date := 0 } rfl

/-! ### Claim C4: ITU assignments -/

/-- C4: in every weekly rota the generation returns, every ward assignment
to ITU has an ITU-trained pharmacist — degenerately so, because a returning
week contains no ward assignments at all: the ward phase is unreachable
(any day with available staff raises `TypeError` at line 92/95), so every
daily rota of a returning week is the empty early-return rota. -/
theorem C4_itu_only_trained (s : RotaScheduler) (start : Int) (w : WeeklyRota)
    (hw : generateWeeklyRota s start = Except.ok w)
    (e : Day × DailyRota) (he : e ∈ w.daily_rotas) :
    e.2.ward_assignments = [] ∧
    ∀ wa ∈ e.2.ward_assignments, wa.ward_area = WardArea.itu →
      wa.pharmacist.itu_trained = true := by
  obtain ⟨hshape, -⟩ := generateWeeklyRota_ok_shape s start w hw
  subst hshape
  have hlist : e ∈ initDailyRotas start := he
  simp only [initDailyRotas, List.mem_cons, List.mem_singleton,
    List.not_mem_nil, or_false] at hlist
  rcases hlist with rfl | rfl | rfl | rfl | rfl <;>
    exact ⟨rfl, fun wa hwa _ => absurd hwa (List.not_mem_nil wa)⟩

/-- Witness for C4: the Monday entry of the returning `schedNever` week has
no ward assignments, so in particular no untrained ITU assignment. -/
theorem C4_itu_only_trained_witness :
    ((Day.monday, ({ day := Day.monday, date := 0 } : DailyRota)) :
        Day × DailyRota).2.ward_assignments = [] ∧
    ∀ wa ∈ ((Day.monday, ({ day := Day.monday, date := 0 } : DailyRota)) :
        Day × DailyRota).2.ward_assignments,
      wa.ward_area = WardArea.itu → wa.pharmacist.itu_trained = true :=
  C4_itu_only_trained schedNever 0
    { start_date := 0, daily_rotas := initDailyRotas 0 } rfl
    ((Day.monday, ({ day := Day.monday, date := 0 } : DailyRota))) (by decide)

/-! ### Claim C5: dispensary records per day -/

/-- C5 counterexample: `schedNever` has a rostered member who is available
on no day; the generated week returns and every one of its five days
carries 0 dispensary-shift records instead of the claimed 4. -/
theorem C5_counterexample :
    schedNever.pharmacists ≠ [] ∧
    generateWeeklyRota schedNever 0 =
      Except.ok { start_date := 0, daily_rotas := initDailyRotas 0 } ∧
    ∀ e ∈ initDailyRotas 0, e.2.dispensary_shifts.length = 0 := by
  refine ⟨?_, rfl, ?_⟩ <;> decide

/-- C5 amended: a weekly generation returns only when no staff member is
available on any of its five days, and then every DailyRota carries 0
DispensaryShift records; a day with available staff raises `TypeError`
before any record is created, so no returning rota ever carries 4. -/
theorem C5_slot_count (s : RotaScheduler) (start : Int) (w : WeeklyRota)
    (hw : generateWeeklyRota s start = Except.ok w)
    (e : Day × DailyRota) (he : e ∈ w.daily_rotas) :
    availableOn s e.1 = [] ∧ e.2.dispensary_shifts = [] := by
  obtain ⟨hshape, hav⟩ := generateWeeklyRota_ok_shape s start w hw
  subst hshape
  refine ⟨hav e he, ?_⟩
  have hlist : e ∈ initDailyRotas start := he
  simp only [initDailyRotas, List.mem_cons, List.mem_singleton,
    List.not_mem_nil, or_false] at hlist
  rcases hlist with rfl | rfl | rfl | rfl | rfl <;> rfl

/-- Witness for C5: Monday of the returning `schedNever` week has no
available staff and no dispensary-shift records. -/
theorem C5_slot_count_witness :
    availableOn schedNever Day.monday = [] ∧
    ({ day := Day.monday, date := 0 } : DailyRota).dispensary_shifts = [] :=
  C5_slot_count schedNever 0 { start_date := 0, daily_rotas := initDailyRotas 0 }
    rfl ((Day.monday, ({ day := Day.monday, date := 0 } : DailyRota))) (by decide)

/-! ### The balancer only rewrites holders of already-assigned shifts -/

theorem shiftSim_refl (sh : DispensaryShift) : ShiftSim sh sh :=
  ⟨Eq.refl _, Eq.refl _, fun h => h⟩

theorem rotaSim_refl (e : Day × DailyRota) : RotaSim e e :=
  ⟨Eq.refl _, Eq.refl _, Eq.refl _,
    List.forall₂_same.mpr (fun sh _ => shiftSim_refl sh), Eq.refl _, Eq.refl _, Eq.refl _⟩

theorem balanceShiftStep_sim (ps : List Pharmacist) (d : Day) (sh : DispensaryShift)
    (ov un : List (String × Nat)) :
    ShiftSim sh (balanceShiftStep ps d sh ov un).1 := by
  unfold balanceShiftStep
  split
  · exact shiftSim_refl sh
  · rename_i p heq
    dsimp only
    split
    · split
      · exact ⟨Eq.refl _, Eq.refl _, fun hnone => by rw [hnone] at heq; cases heq⟩
      · exact shiftSim_refl sh
    · exact shiftSim_refl sh

theorem balanceShiftsDay_sim (ps : List Pharmacist) (d : Day) :
    ∀ (shifts : List DispensaryShift) (ov un : List (String × Nat)),
      List.Forall₂ ShiftSim shifts (balanceShiftsDay ps d shifts ov un).1 := by
  intro shifts
  induction shifts with
  | nil => intro ov un; exact List.Forall₂.nil
  | cons sh rest ih =>
    intro ov un
    exact List.Forall₂.cons (balanceShiftStep_sim ps d sh ov un) (ih _ _)

theorem balanceLoop_sim (ps : List Pharmacist) :
    ∀ (l : List (Day × DailyRota)) (ov un : List (String × Nat)),
      List.Forall₂ RotaSim l (balanceLoop ps l ov un) := by
  intro l
  induction l with
  | nil => intro ov un; exact List.Forall₂.nil
  | cons e rest ih =>
    intro ov un
    obtain ⟨d, r⟩ := e
    rw [balanceLoop]
    split
    · exact List.forall₂_same.mpr (fun x _ => rotaSim_refl x)
    · exact List.Forall₂.cons
        ⟨Eq.refl _, Eq.refl _, Eq.refl _, balanceShiftsDay_sim ps d r.dispensary_shifts _ _,
          Eq.refl _, Eq.refl _, Eq.refl _⟩ (ih _ _)

theorem balance_sim (s : RotaScheduler) (w : WeeklyRota) :
    List.Forall₂ RotaSim w.daily_rotas (balanceDispensaryShifts s w).daily_rotas := by
  unfold balanceDispensaryShifts
  dsimp only
  split
  · exact List.forall₂_same.mpr (fun x _ => rotaSim_refl x)
  · exact balanceLoop_sim s.pharmacists w.daily_rotas _ _

/-! ### Positional pairing along `List.Forall₂` -/

theorem forallTwo_getElem {α β : Type} {R : α → β → Prop} :
    ∀ {l : List α} {l' : List β}, List.Forall₂ R l l' →
      ∀ (i : Nat) (a : α) (b : β), l[i]? = some a → l'[i]? = some b → R a b := by
  intro l l' h
  induction h with
  | nil => intro i a b ha; simp at ha
  | cons hr _ ih =>
    intro i a b ha hb
    cases i with
    | zero =>
      simp only [List.getElem?_cons_zero, Option.some.injEq] at ha hb
      rw [← ha, ← hb]
      exact hr
    | succ n =>
      simp only [List.getElem?_cons_succ] at ha hb
      exact ih n a b ha hb

/-! ### Claim C9: week shape -/

/-- C9: every weekly generation call that returns yields exactly five daily
rotas, keyed Monday to Friday in order, with the contiguous dates start,
start+1, start+2, start+3 and start+4. -/
theorem C9_week_shape (s : RotaScheduler) (start : Int) (w : WeeklyRota)
    (hw : generateWeeklyRota s start = Except.ok w) :
    w.daily_rotas.map (fun e => (e.1, e.2.date)) =
      [(Day.monday, start), (Day.tuesday, start + 1), (Day.wednesday, start + 2),
       (Day.thursday, start + 3), (Day.friday, start + 4)] := by
  obtain ⟨hshape, -⟩ := generateWeeklyRota_ok_shape s start w hw
  subst hshape
  rfl

/-- Witness for C9: the returning week of the empty roster has the five
contiguous dates. -/
theorem C9_week_shape_witness :
    ({ start_date := 0, daily_rotas := initDailyRotas 0 } :
        WeeklyRota).daily_rotas.map (fun e => (e.1, e.2.date)) =
      [(Day.monday, 0), (Day.tuesday, 0 + 1), (Day.wednesday, 0 + 2),
       (Day.thursday, 0 + 3), (Day.friday, 0 + 4)] :=
  C9_week_shape schedEmpty 0
    { start_date := 0, daily_rotas := initDailyRotas 0 } rfl

/-! ### Claim C10: the balancer never fills an unassigned shift -/

/-- C10: for every input week, any dispensary shift that is unassigned before
`_balance_dispensary_shifts` is still unassigned at the same position
afterwards: the balancer skips unassigned shifts and only rewrites holders. -/
theorem C10_balancer_never_fills (s : RotaScheduler) (w : WeeklyRota) (i j : Nat)
    (e e' : Day × DailyRota) (sh sh' : DispensaryShift)
    (he : w.daily_rotas[i]? = some e)
    (he' : (balanceDispensaryShifts s w).daily_rotas[i]? = some e')
    (hsh : e.2.dispensary_shifts[j]? = some sh)
    (hsh' : e'.2.dispensary_shifts[j]? = some sh')
    (hnone : sh.assigned_pharmacist = none) :
    sh'.assigned_pharmacist = none := by
  obtain ⟨_, _, _, hshifts, _⟩ := forallTwo_getElem (balance_sim s w) i e e' he he'
  exact (forallTwo_getElem hshifts j sh sh' hsh hsh').2.2 hnone

/-- Witness for C10: the unassigned Monday shift of `wUnassigned` is still
unassigned after balancing. -/
theorem C10_balancer_never_fills_witness :
    shUnassigned.assigned_pharmacist = none :=
  C10_balancer_never_fills schedEmpty wUnassigned 0 0
    (Day.monday, rUnassigned) (Day.monday, rUnassigned) shUnassigned shUnassigned
    (by decide) (by decide) (by decide) (by decide) (by decide)

/-! ### Association-list lemmas -/

theorem alookup_aset_self {α β : Type} [DecidableEq α] (k : α) (v : β) :
    ∀ l : List (α × β), alookup k (aset k v l) = some v := by
  intro l
  induction l with
  | nil => simp [aset, alookup]
  | cons kv rest ih =>
    obtain ⟨k', v'⟩ := kv
    by_cases h : k' = k
    · subst h
      simp [aset, alookup]
    · simp [aset, h, alookup, ih]

theorem alookup_aset_ne {α β : Type} [DecidableEq α] (k k' : α) (v : β) (h : k' ≠ k) :
    ∀ l : List (α × β), alookup k' (aset k v l) = alookup k' l := by
  intro l
  induction l with
  | nil => simp [aset, alookup, Ne.symm h]
  | cons kv rest ih =>
    obtain ⟨k'', v''⟩ := kv
    by_cases hk : k'' = k
    · subst hk
      simp [aset, alookup, Ne.symm h]
    · simp [aset, hk, alookup, ih]

theorem mem_keys_aset {α β : Type} [DecidableEq α] (k x : α) (v : β) :
    ∀ l : List (α × β), x ∈ (aset k v l).map Prod.fst ↔ x = k ∨ x ∈ l.map Prod.fst := by
  intro l
  induction l with
  | nil => simp [aset]
  | cons kv rest ih =>
    obtain ⟨k', v'⟩ := kv
    by_cases h : k' = k
    · subst h
      simp [aset]
    · simp [aset, h, ih]
      tauto

theorem aset_keys_nodup {α β : Type} [DecidableEq α] (k : α) (v : β) :
    ∀ l : List (α × β), (l.map Prod.fst).Nodup → ((aset k v l).map Prod.fst).Nodup := by
  intro l
  induction l with
  | nil => intro _; simp [aset]
  | cons kv rest ih =>
    obtain ⟨k', v'⟩ := kv
    intro hnd
    simp only [List.map_cons, List.nodup_cons] at hnd
    by_cases h : k' = k
    · subst h
      rw [show aset k' v ((k', v') :: rest) = (k', v) :: rest from by simp [aset]]
      simp only [List.map_cons, List.nodup_cons]
      exact hnd
    · simp only [aset, if_neg h, List.map_cons, List.nodup_cons]
      refine ⟨?_, ih hnd.2⟩
      rw [mem_keys_aset]
      rintro (rfl | hm)
      · exact h rfl
      · exact hnd.1 hm

theorem alookup_mem_of_eq {α β : Type} [DecidableEq α] (k : α) (v : β) :
    ∀ l : List (α × β), alookup k l = some v → (k, v) ∈ l := by
  intro l
  induction l with
  | nil => intro h; cases h
  | cons kv rest ih =>
    obtain ⟨k', v'⟩ := kv
    intro h
    rw [alookup] at h
    split at h
    · rename_i heq
      cases h
      rw [heq]
      exact List.mem_cons_self _ _
    · exact List.mem_cons_of_mem _ (ih h)

theorem alookup_filter_value {α β : Type} [DecidableEq α] (pred : β → Bool) (k : α) :
    ∀ l : List (α × β), (l.map Prod.fst).Nodup →
      alookup k (l.filter (fun kv => pred kv.2)) =
        match alookup k l with
        | some v => if pred v then some v else none
        | none => none := by
  intro l
  induction l with
  | nil => intro _; simp [alookup]
  | cons kv rest ih =>
    obtain ⟨k', v'⟩ := kv
    intro hnd
    simp only [List.map_cons, List.nodup_cons] at hnd
    by_cases h : k' = k
    · cases h
      have hrestnone : alookup k rest = none := by
        rcases hlk : alookup k rest with _ | v
        · rfl
        · exact absurd (List.mem_map.mpr
            ⟨(k, v), alookup_mem_of_eq k v rest hlk, rfl⟩) hnd.1
      have hrest : alookup k (rest.filter (fun kv => pred kv.2)) = none := by
        rw [ih hnd.2, hrestnone]
      by_cases hp : pred v'
      · simp [List.filter_cons, hp, alookup]
      · simp [List.filter_cons, hp, alookup, hrest]
    · by_cases hp : pred v'
      · simp [List.filter_cons, hp, alookup, h, ih hnd.2]
      · simp [List.filter_cons, hp, alookup, h, ih hnd.2]

/-! ### Characterisation of the shift-count map of the balancer -/

theorem bump_foldl_lookup (pid : String) :
    ∀ (shifts : List DispensaryShift) (counts : List (String × Nat)),
      alookup pid (shifts.foldl (fun counts' sh =>
          match sh.assigned_pharmacist with
          | some p => aset p.id ((alookup p.id counts').getD 0 + 1) counts'
          | none => counts') counts) =
        if alookup pid counts = none ∧ shifts.countP (assignedToId pid) = 0 then none
        else some ((alookup pid counts).getD 0 + shifts.countP (assignedToId pid)) := by
  intro shifts
  induction shifts with
  | nil =>
    intro counts
    rcases h : alookup pid counts with _ | v <;> simp [h]
  | cons sh rest ih =>
    intro counts
    rw [List.foldl_cons]
    rcases hsh : sh.assigned_pharmacist with _ | p
    · rw [ih]
      simp [List.countP_cons, assignedToId, hsh]
    · by_cases hpid : p.id = pid
      · rw [ih]
        dsimp only
        rw [hpid, alookup_aset_self]
        have hcnt : (sh :: rest).countP (assignedToId pid) =
            rest.countP (assignedToId pid) + 1 := by
          simp [List.countP_cons, assignedToId, hsh, hpid]
        rw [hcnt]
        rcases hc : alookup pid counts with _ | v <;> · simp [hc]
                                                        try omega
      · have hne : pid ≠ p.id := fun hh => hpid hh.symm
        rw [ih]
        dsimp only
        rw [alookup_aset_ne p.id pid _ hne]
        have hcnt : (sh :: rest).countP (assignedToId pid) =
            rest.countP (assignedToId pid) := by
          simp [List.countP_cons, assignedToId, hsh, hpid]
        rw [hcnt]

theorem countShifts_go (pid : String) :
    ∀ (rotas : List (Day × DailyRota)) (counts : List (String × Nat)),
      alookup pid (rotas.foldl (fun counts e =>
          e.2.dispensary_shifts.foldl (fun counts' sh =>
            match sh.assigned_pharmacist with
            | some p => aset p.id ((alookup p.id counts').getD 0 + 1) counts'
            | none => counts') counts) counts) =
        if alookup pid counts = none ∧ rotasAssignedCount pid rotas = 0 then none
        else some ((alookup pid counts).getD 0 + rotasAssignedCount pid rotas) := by
  intro rotas
  induction rotas with
  | nil =>
    intro counts
    rcases h : alookup pid counts with _ | v <;> simp [h, rotasAssignedCount]
  | cons e rest ih =>
    intro counts
    rw [List.foldl_cons]
    rw [ih, bump_foldl_lookup]
    have hsplit : rotasAssignedCount pid (e :: rest) =
        e.2.dispensary_shifts.countP (assignedToId pid) + rotasAssignedCount pid rest := by
      simp [rotasAssignedCount]
    rw [hsplit]
    rcases hc : alookup pid counts with _ | v <;>
      by_cases h1 : e.2.dispensary_shifts.countP (assignedToId pid) = 0 <;>
      by_cases h2 : rotasAssignedCount pid rest = 0 <;>
      · simp [hc, h1, h2]
        try omega

theorem countShifts_lookup (pid : String) (rotas : List (Day × DailyRota)) :
    alookup pid (countShifts rotas) =
      if rotasAssignedCount pid rotas = 0 then none
      else some (rotasAssignedCount pid rotas) := by
  unfold countShifts
  rw [countShifts_go]
  simp [alookup]

theorem countShifts_keys_nodup (rotas : List (Day × DailyRota)) :
    ((countShifts rotas).map Prod.fst).Nodup := by
  have hday : ∀ (shifts : List DispensaryShift) (c : List (String × Nat)),
      (c.map Prod.fst).Nodup →
      ((shifts.foldl (fun counts' sh =>
          match sh.assigned_pharmacist with
          | some p => aset p.id ((alookup p.id counts').getD 0 + 1) counts'
          | none => counts') c).map Prod.fst).Nodup := by
    intro shifts
    induction shifts with
    | nil => intro c h; exact h
    | cons sh rest ih =>
      intro c h
      rw [List.foldl_cons]
      apply ih
      rcases hsh : sh.assigned_pharmacist with _ | p
      · exact h
      · exact aset_keys_nodup _ _ c h
  have hweek : ∀ (rs : List (Day × DailyRota)) (c : List (String × Nat)),
      (c.map Prod.fst).Nodup →
      ((rs.foldl (fun counts e =>
          e.2.dispensary_shifts.foldl (fun counts' sh =>
            match sh.assigned_pharmacist with
            | some p => aset p.id ((alookup p.id counts').getD 0 + 1) counts'
            | none => counts') counts) c).map Prod.fst).Nodup := by
    intro rs
    induction rs with
    | nil => intro c h; exact h
    | cons e rest ih =>
      intro c h
      rw [List.foldl_cons]
      exact ih _ (hday _ _ h)
  unfold countShifts
  exact hweek rotas [] (by simp)

/-! ### Claim C6: the balancer classification -/

/-- C6 amended: per staff id the balancer counts assigned dispensary shifts
across the week; an id is classified overloaded exactly when its total
exceeds 3 and underloaded exactly when its total is 1 — a rostered staff
member with zero shifts never enters the count map and is therefore not
underloaded; when either classified set is empty the pass returns the week
unchanged. -/
theorem C6_balancer_classification (w : WeeklyRota) (pid : String) :
    ((alookup pid (overloadedOf (countShifts w.daily_rotas))).isSome ↔
      3 < weekAssignedCount pid w) ∧
    ((alookup pid (underloadedOf (countShifts w.daily_rotas))).isSome ↔
      weekAssignedCount pid w = 1) ∧
    (∀ s : RotaScheduler,
      overloadedOf (countShifts w.daily_rotas) = [] ∨
        underloadedOf (countShifts w.daily_rotas) = [] →
      balanceDispensaryShifts s w = w) := by
  have hnd := countShifts_keys_nodup w.daily_rotas
  have hov := alookup_filter_value (fun n => decide (3 < n)) pid
    (countShifts w.daily_rotas) hnd
  have hun := alookup_filter_value (fun n => decide (n < 2)) pid
    (countShifts w.daily_rotas) hnd
  rw [countShifts_lookup] at hov hun
  refine ⟨?_, ?_, ?_⟩
  · rw [show overloadedOf (countShifts w.daily_rotas) =
      (countShifts w.daily_rotas).filter (fun kc => decide (3 < kc.2)) from rfl]
    rw [weekAssignedCount, hov]
    by_cases h0 : rotasAssignedCount pid w.daily_rotas = 0
    · simp [h0]
    · simp only [h0, if_false]
      by_cases h3 : 3 < rotasAssignedCount pid w.daily_rotas <;> simp [h3]
  · rw [show underloadedOf (countShifts w.daily_rotas) =
      (countShifts w.daily_rotas).filter (fun kc => decide (kc.2 < 2)) from rfl]
    rw [weekAssignedCount, hun]
    by_cases h0 : rotasAssignedCount pid w.daily_rotas = 0
    · simp [h0]
    · simp only [h0, if_false]
      by_cases h2 : rotasAssignedCount pid w.daily_rotas < 2 <;> simp [h2] <;> omega
  · intro s hemp
    unfold balanceDispensaryShifts
    rcases hemp with h | h <;> simp [h]

/-- Witness for C6: the week really built by the returning `schedNever`
run has no assigned shifts, its underloaded set is empty, and the balancer
leaves it unchanged. -/
theorem C6_balancer_classification_witness :
    balanceDispensaryShifts schedNever
        { start_date := 0, daily_rotas := initDailyRotas 0 } =
      { start_date := 0, daily_rotas := initDailyRotas 0 } :=
  (C6_balancer_classification
    { start_date := 0, daily_rotas := initDailyRotas 0 } "never").2.2 schedNever
    (Or.inr (by decide))

/-- C6 counterexample: `pNever` is rostered in `schedNever` and holds zero
dispensary shifts in the returned week, yet the underloaded set of that
week is empty: a rostered staff member with zero shifts is not classified
underloaded. -/
theorem C6_counterexample :
    pNever ∈ schedNever.pharmacists ∧
    generateWeeklyRota schedNever 0 =
      Except.ok { start_date := 0, daily_rotas := initDailyRotas 0 } ∧
    weekAssignedCount "never"
      { start_date := 0, daily_rotas := initDailyRotas 0 } = 0 ∧
    underloadedOf (countShifts (initDailyRotas 0)) = [] := by
  refine ⟨?_, rfl, ?_, ?_⟩ <;> decide

/-! ### Claim C7: lunch cover trigger -/

/-- C7: in every daily rota the generation returns, the lunch-cover trigger
(the holder test of `_get_dispensary_pharmacist`) and the single-holder
condition are both absent, so the biconditional of the claim holds: no
lunch cover is recorded, the holder test succeeds with none, and its firing
is equivalent to one staff member holding all four slots — both sides
false, because on a day with staff the generation raises `TypeError` before
the lunch step can run and a returning rota carries no shifts. -/
theorem C7_lunch_iff_single_holder (s : RotaScheduler) (day : Day) (date : Int)
    (r : DailyRota) (h : generateDailyRota s day date = Except.ok r) :
    r.lunch_cover = none ∧
    DailyRota.getDispensaryPharmacist r = Except.ok none ∧
    ((∃ dp, DailyRota.getDispensaryPharmacist r = Except.ok (some dp)) ↔
      (∃ p, r.dispensary_shifts ≠ [] ∧
        ∀ sh ∈ r.dispensary_shifts, sh.assigned_pharmacist = some p)) := by
  obtain ⟨-, hshape⟩ := generateDailyRota_ok_shape s day date r h
  subst hshape
  refine ⟨rfl, rfl, ?_, ?_⟩
  · rintro ⟨dp, hdp⟩
    exact Option.noConfusion (Except.ok.inj hdp)
  · rintro ⟨p, hne, -⟩
    exact absurd rfl hne

/-- Witness for C7: the returning Monday rota of `schedNever` records no
lunch cover and its holder test yields none. -/
theorem C7_lunch_iff_single_holder_witness :
    ({ day := Day.monday, date := 0 } : DailyRota).lunch_cover = none ∧
    DailyRota.getDispensaryPharmacist ({ day := Day.monday, date := 0 } : DailyRota) =
      Except.ok none ∧
    ((∃ dp, DailyRota.getDispensaryPharmacist
        ({ day := Day.monday, date := 0 } : DailyRota) = Except.ok (some dp)) ↔
      (∃ p, ({ day := Day.monday, date := 0 } : DailyRota).dispensary_shifts ≠ [] ∧
        ∀ sh ∈ ({ day := Day.monday, date := 0 } : DailyRota).dispensary_shifts,
          sh.assigned_pharmacist = some p)) :=
  C7_lunch_iff_single_holder schedNever Day.monday 0
    { day := Day.monday, date := 0 } rfl

end Rota
